import Mathlib

/-!
Verification of the pam-http / nss-uds identity bridge (http.c, passwd.c, pam_uds.c).

Two levels of modelling, both translated directly from the C source:

* A byte-level model of the Directory Client's write path (`authenticatorData`,
  `getUrl` in http.c): the response arrives as a list of chunks, each delivered
  to the write callback; the caller-supplied buffer is a `List Nat` of bytes.
  curl semantics: a callback returning a value different from the chunk size
  aborts the transfer with `CURLE_WRITE_ERROR` (= 23).

* A string-level model of the operations (`httpAuthenticate`, `getUserData`,
  `getUID`, `getName` in http.c, the NSS entry points in passwd.c and the PAM
  entry point in pam_uds.c) parameterised by an abstract `fetch` oracle
  `String → Int × List Char` standing for `getUrl`: the transport result code
  (0 = success, positive = curl error such as 22 = `CURLE_HTTP_RETURNED_ERROR`
  for an HTTP error status under `CURLOPT_FAILONERROR`) and the response body.
-/

/-- The `struct OutputData` of http.c: the caller-supplied byte buffer, its
capacity (`size`) and the write position (`pos`). -/
structure OutputData where
  buffer : List Nat
  size : Nat
  pos : Nat
deriving DecidableEq, Repr

/-- `memcpy(buf + pos, chunk, chunk.length)`: overwrite `buf` at offset `pos`
with `chunk`, leaving the rest unchanged. -/
def writeAt (buf : List Nat) (pos : Nat) (chunk : List Nat) : List Nat :=
  buf.take pos ++ chunk ++ buf.drop (pos + chunk.length)

/-- The curl write callback of http.c: if `pos + realSize >= size` the chunk is
rejected (return 0, nothing copied); otherwise the chunk is copied at `pos` and
`pos` advances. -/
def authenticatorData (chunk : List Nat) (data : OutputData) : Nat × OutputData :=
  if data.size ≤ data.pos + chunk.length then (0, data)
  else (chunk.length, ⟨writeAt data.buffer data.pos chunk, data.size, data.pos + chunk.length⟩)

/-- Delivery of the response chunks by curl: each chunk goes through the write
callback; a callback result different from the chunk size aborts the transfer
(`false`). -/
def runTransfer : List (List Nat) → OutputData → Bool × OutputData
  | [], d => (true, d)
  | c :: cs, d =>
    let r := authenticatorData c d
    if r.1 = c.length then runTransfer cs r.2 else (false, r.2)

/-- `getUrl` of http.c, write path: perform the transfer, then unconditionally
write the NUL terminator `buffer[pos] = 0`. `netres` is the result
`curl_easy_perform` would report when every chunk is delivered; an aborted
write yields `CURLE_WRITE_ERROR` = 23. -/
def getUrl (netres : Int) (chunks : List (List Nat)) (d : OutputData) : Int × OutputData :=
  let r := runTransfer chunks d
  (if r.1 then netres else 23, ⟨writeAt r.2.buffer r.2.pos [0], r.2.size, r.2.pos⟩)

/-! String-level operations, with `getUrl` abstracted as a `fetch` oracle. -/

/-- `#define UID "uid"` of http.c. -/
def UID : String := "uid"

/-- `#define NAME "name"` of http.c. -/
def NAME : String := "name"

/-- `#define AUTHID "id"` of http.c. -/
def AUTHID : String := "id"

/-- `#define AUTHPASS "pass"` of http.c. -/
def AUTHPASS : String := "pass"

/-- `sprintf(url, "%s?%s=%s", host, kind, id)` of `getUserData`. -/
def lookupUrl (host kind id : String) : String :=
  host ++ "?" ++ kind ++ "=" ++ id

/-- `sprintf(url, "%s?%s=%s&%s=%s", authHost, AUTHID, username, AUTHPASS,
password)` of `httpAuthenticate`: plain concatenation, no escaping. -/
def buildAuthUrl (authHost username password : String) : String :=
  authHost ++ "?" ++ AUTHID ++ "=" ++ username ++ "&" ++ AUTHPASS ++ "=" ++ password

/-- The NUL character written by `getUrl` at the end of the received body. -/
def nulChar : Char := Char.ofNat 0

/-- `buffer[0]` after `getUrl`: the first byte of the body, or the NUL
terminator when the body is empty. -/
def firstChar (body : List Char) : Char := body.headD nulChar

/-- `httpAuthenticate` of http.c: fetch `buildAuthUrl`, then turn a success
whose body starts with '0' into -1; every other result code passes through. -/
def httpAuthenticate (fetch : String → Int × List Char) (username password authHost : String) :
    Int :=
  let r := fetch (buildAuthUrl authHost username password)
  if r.1 = 0 ∧ firstChar r.2 = '0' then -1 else r.1

/-- The AuthResult outcome taxonomy of the spec. -/
inductive AuthResult
  | AUTHENTICATED
  | DENIED
  | SERVICE_ERROR
deriving DecidableEq, Repr

/-- Reading of `httpAuthenticate`'s int result: 0 = AUTHENTICATED, -1 (set on a
leading '0') = DENIED, anything else (positive curl transport codes) =
SERVICE_ERROR. -/
def classifyAuth (res : Int) : AuthResult :=
  if res = 0 then .AUTHENTICATED else if res = -1 then .DENIED else .SERVICE_ERROR

/-! Model of `sscanf(buffer, "%d %s", uid, username)` used by `getUserData`. -/

/-- C `isspace` on the default locale. -/
def isSpaceC (c : Char) : Bool :=
  c = ' ' || c = Char.ofNat 9 || c = Char.ofNat 10 ||
  c = Char.ofNat 11 || c = Char.ofNat 12 || c = Char.ofNat 13

/-- Skip leading whitespace, as every `sscanf` conversion does. -/
def skipSpaces : List Char → List Char
  | [] => []
  | c :: cs => if isSpaceC c then skipSpaces cs else c :: cs

/-- C `isdigit`. -/
def isDigitC (c : Char) : Bool := '0' ≤ c && c ≤ '9'

/-- Split off the longest leading run of digits. -/
def takeDigits : List Char → List Char × List Char
  | [] => ([], [])
  | c :: cs =>
    if isDigitC c then
      let r := takeDigits cs
      (c :: r.1, r.2)
    else ([], c :: cs)

/-- Numeric value of a digit run. -/
def digitsToNat (ds : List Char) : Nat :=
  ds.foldl (fun a c => 10 * a + (c.toNat - 48)) 0

/-- The `%d` conversion: skip whitespace, optional sign, at least one digit;
`none` on matching failure (the target variable is then left untouched). -/
def scanInt (s : List Char) : Option (Int × List Char) :=
  match skipSpaces s with
  | '-' :: rest =>
    match takeDigits rest with
    | ([], _) => none
    | (ds, r) => some (-(digitsToNat ds : Int), r)
  | '+' :: rest =>
    match takeDigits rest with
    | ([], _) => none
    | (ds, r) => some ((digitsToNat ds : Int), r)
  | s1 =>
    match takeDigits s1 with
    | ([], _) => none
    | (ds, r) => some ((digitsToNat ds : Int), r)

/-- Split off the longest leading run of non-whitespace characters. -/
def takeTok : List Char → List Char × List Char
  | [] => ([], [])
  | c :: cs =>
    if isSpaceC c then ([], c :: cs)
    else
      let r := takeTok cs
      (c :: r.1, r.2)

/-- The `%s` conversion: skip whitespace, read a non-empty token; `none` on
input failure (end of input), leaving the target untouched. -/
def scanStr (s : List Char) : Option (List Char) :=
  match takeTok (skipSpaces s) with
  | ([], _) => none
  | (t, _) => some t

/-- The decode branch of `getUserData` (http.c) reached when `getUrl` returned
0, as a function of the received body. Result `(res, uid, username)`: before
the fetch the C code initialises `*username = '\0'` and `*uid = -1`; a body
starting with '*' sets `res = -1`; otherwise `sscanf("%d %s")` runs (its return
value is ignored) and `uid == -1` afterwards sets `res = -1`. -/
def decodeLookup (body : List Char) : Int × Int × List Char :=
  if firstChar body = '*' then (-1, -1, [])
  else
    match scanInt body with
    | none => (-1, -1, [])
    | some (n, rest) =>
      let name := (scanStr rest).getD []
      if n = -1 then (-1, -1, name) else (0, n, name)

/-- `getUserData` of http.c over the fetch oracle: build the lookup URL, fetch,
decode on transport success; on transport failure return the transport code
with the initial `uid = -1`, `username = ""`. -/
def getUserData (fetch : String → Int × List Char) (host kind id : String) :
    Int × Int × List Char :=
  let r := fetch (lookupUrl host kind id)
  if r.1 = 0 then decodeLookup r.2 else (r.1, -1, [])

/-- `getUID` of http.c: lookup by name, under the `UID` query parameter. -/
def getUID (fetch : String → Int × List Char) (host name : String) : Int × Int × List Char :=
  getUserData fetch host UID name

/-- `getName` of http.c: lookup by numeric id printed with `%d`, under the
`NAME` query parameter. -/
def getName (fetch : String → Int × List Char) (host : String) (id : Int) :
    Int × Int × List Char :=
  getUserData fetch host NAME (toString id)

/-! NSS adapter (passwd.c). -/

/-- NSS statuses returned by the passwd.c entry points. -/
inductive NssStatus
  | SUCCESS
  | NOTFOUND
  | UNAVAIL
deriving DecidableEq, Repr

/-- `fgets(host, 255, f)` on the file contents: read up to 254 characters,
stopping after the first newline. -/
def takeLineAux : Nat → List Char → List Char
  | 0, _ => []
  | _, [] => []
  | n + 1, c :: cs => if c = Char.ofNat 10 then [c] else c :: takeLineAux n cs

/-- `read_config` of passwd.c. `cfg` is the contents of /etc/uds.conf when the
file exists. When the file exists but is completely empty, `fgets` reads
nothing and the stack buffer keeps its prior, uninitialized contents; that
arbitrary prior value is the `prior` argument (the subsequent newline-stripping
on it is C undefined behaviour and is not modelled). -/
def read_config (cfg : Option String) (prior : String) : String :=
  match cfg with
  | none => ""
  | some content =>
    if content = "" then prior
    else
      let line := takeLineAux 254 content.data
      let line2 := if line.getLast? = some (Char.ofNat 10) then line.dropLast else line
      String.mk line2

/-- `_nss_uds_getpwnam_r` of passwd.c, status path: read the config, fail
UNAVAIL on a short buffer or empty host, otherwise resolve through `getUID`. -/
def _nss_uds_getpwnam_r (fetch : String → Int × List Char) (cfg : Option String)
    (prior : String) (name : String) (buflen : Nat) : NssStatus :=
  let host := read_config cfg prior
  if buflen < 128 ∨ host = "" then .UNAVAIL
  else if (getUID fetch host name).1 ≠ 0 then .NOTFOUND
  else .SUCCESS

/-- `_nss_uds_getpwuid_r` of passwd.c, status path: read the config, fail
UNAVAIL on a short buffer or empty host, otherwise resolve through `getName`. -/
def _nss_uds_getpwuid_r (fetch : String → Int × List Char) (cfg : Option String)
    (prior : String) (uid : Int) (buflen : Nat) : NssStatus :=
  let host := read_config cfg prior
  if buflen < 128 ∨ host = "" then .UNAVAIL
  else if (getName fetch host uid).1 ≠ 0 then .NOTFOUND
  else .SUCCESS

/-! PAM adapter (pam_uds.c). -/

/-- PAM statuses returned by `pam_sm_authenticate`. -/
inductive PamStatus
  | SUCCESS
  | AUTH_ERR
deriving DecidableEq, Repr

/-- `_pam_parse` of pam_uds.c, state effect on the file-scope
`static char baseUrl[128]`: a `base=` argument overwrites it via
`strncpy(baseUrl, arg + 5, 128); baseUrl[127] = '\0'` (so at most 127
characters are kept); every other argument leaves it unchanged. -/
def pam_parse (baseUrl : String) (argv : List String) : String :=
  argv.foldl (fun b a =>
    if a = "silent" then b
    else if a.data.take 5 = ['b', 'a', 's', 'e', '='] then String.mk ((a.data.drop 5).take 127)
    else b) baseUrl

/-- `pam_sm_authenticate` of pam_uds.c: parse the arguments (updating the
static `baseUrl`, whose value before the call is `baseUrl0`), fail AUTH_ERR on
an empty `baseUrl`, on a missing username or password, or on a nonzero
`httpAuthenticate` result. Returns the PAM status together with the value the
static `baseUrl` holds after the call. -/
def pam_sm_authenticate (fetch : String → Int × List Char) (baseUrl0 : String)
    (argv : List String) (user passwd : Option String) : PamStatus × String :=
  let b := pam_parse baseUrl0 argv
  if b = "" then (.AUTH_ERR, b)
  else
    match user with
    | none => (.AUTH_ERR, b)
    | some u =>
      match passwd with
      | none => (.AUTH_ERR, b)
      | some p => if httpAuthenticate fetch u p b ≠ 0 then (.AUTH_ERR, b) else (.SUCCESS, b)
/-! Helper lemmas about the transfer model. -/

theorem writeAt_split (buf : List Nat) (pos : Nat) (chunk : List Nat) :
    writeAt buf pos chunk = (buf.take pos ++ chunk) ++ buf.drop (pos + chunk.length) := by
  simp [writeAt]

theorem runTransfer_ok : ∀ (chunks : List (List Nat)) (d : OutputData),
    d.size ≤ d.buffer.length → d.pos + chunks.flatten.length < d.size →
    runTransfer chunks d =
      (true, ⟨d.buffer.take d.pos ++ chunks.flatten ++
                d.buffer.drop (d.pos + chunks.flatten.length),
              d.size, d.pos + chunks.flatten.length⟩) := by
  intro chunks
  induction chunks with
  | nil =>
    intro d hb hfit
    simp [runTransfer, List.take_append_drop]
  | cons c cs ih =>
    intro d hb hfit
    have hlen : d.pos + c.length + cs.flatten.length < d.size := by
      simp only [List.flatten_cons, List.length_append] at hfit
      omega
    have hacc : ¬ d.size ≤ d.pos + c.length := by omega
    have hpos : d.pos ≤ d.buffer.length := by omega
    have hstep : authenticatorData c d =
        (c.length, ⟨writeAt d.buffer d.pos c, d.size, d.pos + c.length⟩) := by
      simp [authenticatorData, hacc]
    have hpre : (d.buffer.take d.pos ++ c).length = d.pos + c.length := by
      simp [List.length_take]; omega
    have hblen : (writeAt d.buffer d.pos c).length = d.buffer.length := by
      simp [writeAt, List.length_take, List.length_drop]; omega
    have ih2 := ih ⟨writeAt d.buffer d.pos c, d.size, d.pos + c.length⟩
      (by simpa [hblen] using hb) (by simpa using hlen)
    have hstep2 : runTransfer (c :: cs) d =
        runTransfer cs ⟨writeAt d.buffer d.pos c, d.size, d.pos + c.length⟩ := by
      simp [runTransfer, hstep]
    rw [hstep2, ih2]
    have htake : (writeAt d.buffer d.pos c).take (d.pos + c.length) =
        d.buffer.take d.pos ++ c := by
      rw [writeAt_split]
      exact List.take_left' hpre
    have hdrop : (writeAt d.buffer d.pos c).drop (d.pos + c.length + cs.flatten.length) =
        d.buffer.drop (d.pos + c.length + cs.flatten.length) := by
      rw [writeAt_split, ← List.drop_drop, List.drop_left' hpre, List.drop_drop]
    simp only [htake, hdrop, List.flatten_cons, List.length_append]
    simp [List.append_assoc, Nat.add_assoc]

theorem runTransfer_true_pos : ∀ (chunks : List (List Nat)) (d d2 : OutputData),
    runTransfer chunks d = (true, d2) →
    d2.pos = d.pos + chunks.flatten.length ∧
      (chunks.flatten.length = 0 ∨ d2.pos < d.size) := by
  intro chunks
  induction chunks with
  | nil =>
    intro d d2 h
    simp [runTransfer] at h
    simp [h.symm]
  | cons c cs ih =>
    intro d d2 h
    by_cases hrej : d.size ≤ d.pos + c.length
    · have hcb : authenticatorData c d = (0, d) := by simp [authenticatorData, hrej]
      simp only [runTransfer, hcb] at h
      by_cases hc0 : c.length = 0
      · rw [if_pos hc0.symm] at h
        have h2 := ih d d2 h
        have hflat : (c :: cs).flatten.length = cs.flatten.length := by
          simp [List.length_eq_zero.mp hc0]
        rw [hflat]
        exact h2
      · rw [if_neg (fun hh => hc0 hh.symm)] at h
        simp at h
    · have hrej2 : d.pos + c.length < d.size := by omega
      have hcb : authenticatorData c d =
          (c.length, ⟨writeAt d.buffer d.pos c, d.size, d.pos + c.length⟩) := by
        simp [authenticatorData, hrej]
      simp only [runTransfer, hcb, if_true] at h
      obtain ⟨hp, hd⟩ := ih _ _ h
      have hp2 : d2.pos = d.pos + c.length + cs.flatten.length := hp
      constructor
      · simp only [List.flatten_cons, List.length_append]
        omega
      · right
        rcases hd with hd | hd
        · omega
        · exact hd

/-- Claim C1: the write callback rejects outright any chunk that would exceed
the remaining buffer capacity (returning 0 with the state unchanged, which
aborts the transfer), never clamping; a response totalling exactly
`capacity - 1` bytes succeeds with the NUL terminator within the capacity
bound; a response one byte over `capacity` makes `getUrl` fail with the write
error code 23 (the BufferOverflowError of the spec). -/
theorem c1_buffer_overflow_contract :
    (∀ (d : OutputData) (chunk : List Nat) (cs : List (List Nat)),
        d.size ≤ d.pos + chunk.length →
        authenticatorData chunk d = (0, d) ∧
          (chunk ≠ [] → (runTransfer (chunk :: cs) d).1 = false)) ∧
    (∀ (chunks : List (List Nat)) (d : OutputData),
        d.pos = 0 → d.buffer.length = d.size → chunks.flatten.length + 1 = d.size →
        getUrl 0 chunks d = (0, ⟨chunks.flatten ++ [0], d.size, chunks.flatten.length⟩)) ∧
    (∀ (netres : Int) (chunks : List (List Nat)) (d : OutputData),
        d.pos = 0 → chunks.flatten.length = d.size + 1 →
        (getUrl netres chunks d).1 = 23) := by
  refine ⟨?_, ?_, ?_⟩
  · intro d chunk cs hover
    have hcb : authenticatorData chunk d = (0, d) := by simp [authenticatorData, hover]
    refine ⟨hcb, fun hne => ?_⟩
    have hlen : chunk.length ≠ 0 := fun h0 => hne (List.length_eq_zero.mp h0)
    simp only [runTransfer, hcb]
    rw [if_neg (fun hh => hlen hh.symm)]
  · intro chunks d hpos hbuf hcap
    obtain ⟨buf, sz, pos⟩ := d
    dsimp only at hpos hbuf hcap ⊢
    subst hpos
    have hfit : 0 + chunks.flatten.length < sz := by omega
    have hrun := runTransfer_ok chunks ⟨buf, sz, 0⟩ (by dsimp only; omega) (by dsimp only; omega)
    dsimp only at hrun
    simp only [List.take_zero, List.nil_append, Nat.zero_add] at hrun
    simp only [getUrl, hrun]
    have h1 : (chunks.flatten ++ buf.drop chunks.flatten.length).take chunks.flatten.length
        = chunks.flatten := List.take_left' rfl
    have h2 : (chunks.flatten ++ buf.drop chunks.flatten.length).drop
          (chunks.flatten.length + 1) = [] := by
      rw [← List.drop_drop, List.drop_left' rfl, List.drop_drop]
      exact List.drop_eq_nil_of_le (by omega)
    have hw : writeAt (chunks.flatten ++ buf.drop chunks.flatten.length)
        chunks.flatten.length [0] = chunks.flatten ++ [0] := by
      rw [writeAt_split, h1]
      simp only [List.length_cons, List.length_nil]
      rw [h2]
      simp
    rw [hw]
    simp
  · intro netres chunks d hpos hcap
    obtain ⟨buf, sz, pos⟩ := d
    dsimp only at hpos hcap ⊢
    subst hpos
    rcases hrun : runTransfer chunks ⟨buf, sz, 0⟩ with ⟨ok, d2⟩
    cases ok
    · simp [getUrl, hrun]
    · exfalso
      obtain ⟨hp, hd⟩ := runTransfer_true_pos chunks _ _ hrun
      dsimp only at hp hd
      omega

/-- Witness for C1 at concrete inputs: a chunk of 1 byte into a full buffer is
rejected; a 3-byte response into capacity 4 succeeds NUL-terminated; a 5-byte
response into capacity 4 fails with 23. -/
theorem c1_buffer_overflow_contract_witness :
    (authenticatorData [5] ⟨[9, 9], 2, 1⟩ = (0, ⟨[9, 9], 2, 1⟩) ∧
      ([5] ≠ ([] : List Nat) → (runTransfer [[5]] ⟨[9, 9], 2, 1⟩).1 = false)) ∧
    getUrl 0 [[1, 2], [3]] ⟨[7, 7, 7, 7], 4, 0⟩ = (0, ⟨[1, 2, 3, 0], 4, 3⟩) ∧
    (getUrl 0 [[1, 2, 3, 4, 5]] ⟨[7, 7, 7, 7], 4, 0⟩).1 = 23 := by
  refine ⟨c1_buffer_overflow_contract.1 ⟨[9, 9], 2, 1⟩ [5] [] (by decide), ?_, ?_⟩
  · exact (c1_buffer_overflow_contract.2.1 [[1, 2], [3]] ⟨[7, 7, 7, 7], 4, 0⟩ rfl (by decide)
      (by decide)).trans (by decide)
  · exact c1_buffer_overflow_contract.2.2 0 [[1, 2, 3, 4, 5]] ⟨[7, 7, 7, 7], 4, 0⟩ rfl (by decide)

/-- Counterexample to claim C2 as stated: the transfer `[[1], [9,9,9,9]]` into
a 4-byte caller buffer ends with the buffer overflow error (23), yet the
destination buffer is no longer its prior contents `[7,7,7,7]`: the accepted
first chunk was already written into caller memory (and a NUL terminator
follows it), so the abort did not precede every partial write. -/
theorem c2_counterexample :
    (getUrl 0 [[1], [9, 9, 9, 9]] ⟨[7, 7, 7, 7], 4, 0⟩).1 = 23 ∧
    (getUrl 0 [[1], [9, 9, 9, 9]] ⟨[7, 7, 7, 7], 4, 0⟩).2.buffer = [1, 0, 7, 7] ∧
    (getUrl 0 [[1], [9, 9, 9, 9]] ⟨[7, 7, 7, 7], 4, 0⟩).2.buffer ≠ [7, 7, 7, 7] := by
  decide

/-- Claim C2 amended: when a chunk would overflow the remaining capacity, the
request is aborted at that chunk and no byte of the rejected chunk (nor of any
later chunk) is copied: `getUrl` returns the write error 23 with the buffer
exactly as it stood before the rejected chunk, except for the NUL terminator
written at the end of the previously accepted prefix. Chunks accepted before
the overflow have already been written into the caller buffer. -/
theorem c2_abort_no_copy (netres : Int) (d : OutputData) (chunk : List Nat)
    (cs : List (List Nat)) (hover : d.size ≤ d.pos + chunk.length) (hne : chunk ≠ []) :
    getUrl netres (chunk :: cs) d = (23, ⟨writeAt d.buffer d.pos [0], d.size, d.pos⟩) := by
  have hcb : authenticatorData chunk d = (0, d) := by simp [authenticatorData, hover]
  have hlen : chunk.length ≠ 0 := fun h0 => hne (List.length_eq_zero.mp h0)
  have hrun : runTransfer (chunk :: cs) d = (false, d) := by
    simp only [runTransfer, hcb]
    rw [if_neg (fun hh => hlen hh.symm)]
  simp [getUrl, hrun]

/-- Witness for the amended C2: a 3-byte chunk into an empty 2-byte buffer is
rejected; the only change to the caller buffer is the NUL at position 0. -/
theorem c2_abort_no_copy_witness :
    getUrl 0 [[1, 2, 3]] ⟨[7, 7], 2, 0⟩ = (23, ⟨[0, 7], 2, 0⟩) := by
  exact (c2_abort_no_copy 0 ⟨[7, 7], 2, 0⟩ [1, 2, 3] [] (by decide) (by decide)).trans (by decide)

/-- Claim C3: `httpAuthenticate` yields AUTHENTICATED exactly when the
transport result is 0 and the first byte of the body is not '0'; a leading '0'
on a successful transfer yields DENIED; a positive transport error code (curl
errors, e.g. 22 for an HTTP 500 under FAILONERROR) yields SERVICE_ERROR. -/
theorem c3_auth_result_mapping (fetch : String → Int × List Char) (u p h : String) :
    (classifyAuth (httpAuthenticate fetch u p h) = AuthResult.AUTHENTICATED ↔
      ((fetch (buildAuthUrl h u p)).1 = 0 ∧ firstChar (fetch (buildAuthUrl h u p)).2 ≠ '0')) ∧
    ((fetch (buildAuthUrl h u p)).1 = 0 → firstChar (fetch (buildAuthUrl h u p)).2 = '0' →
      classifyAuth (httpAuthenticate fetch u p h) = AuthResult.DENIED) ∧
    (0 < (fetch (buildAuthUrl h u p)).1 →
      classifyAuth (httpAuthenticate fetch u p h) = AuthResult.SERVICE_ERROR) := by
  rcases hr : fetch (buildAuthUrl h u p) with ⟨res, body⟩
  simp only [httpAuthenticate, hr]
  by_cases h0 : res = 0
  · subst h0
    by_cases hz : firstChar body = '0'
    · simp [hz, classifyAuth]
    · simp [hz, classifyAuth]
  · have hnand : ¬ (res = 0 ∧ firstChar body = '0') := fun hh => h0 hh.1
    rw [if_neg hnand]
    have hone : classifyAuth res ≠ AuthResult.AUTHENTICATED := by
      unfold classifyAuth
      rw [if_neg h0]
      split <;> simp
    exact ⟨⟨fun hcl => absurd hcl hone, fun hh => absurd hh.1 h0⟩,
      fun ha _ => absurd ha h0,
      fun hpos => by
        unfold classifyAuth
        rw [if_neg h0, if_neg (by omega : ¬ res = -1)]⟩

/-- Witness for C3, matching the spec's test vector: a body "1" authenticates,
a body "0" is denied, transport error 22 (HTTP 500 under FAILONERROR) is a
service error. -/
theorem c3_auth_result_mapping_witness :
    classifyAuth (httpAuthenticate (fun _ => ((0 : Int), ['1'])) "alice" "correct" "h") =
      AuthResult.AUTHENTICATED ∧
    classifyAuth (httpAuthenticate (fun _ => ((0 : Int), ['0'])) "alice" "correct" "h") =
      AuthResult.DENIED ∧
    classifyAuth (httpAuthenticate (fun _ => ((22 : Int), ([] : List Char))) "alice" "correct" "h") =
      AuthResult.SERVICE_ERROR := by
  refine ⟨?_, ?_, ?_⟩
  · exact (c3_auth_result_mapping (fun _ => ((0 : Int), ['1'])) "alice" "correct" "h").1.mpr
      ⟨rfl, by decide⟩
  · exact (c3_auth_result_mapping (fun _ => ((0 : Int), ['0'])) "alice" "correct" "h").2.1 rfl rfl
  · exact (c3_auth_result_mapping (fun _ => ((22 : Int), ([] : List Char))) "alice" "correct"
      "h").2.2 (by decide)

/-- Claim C10: a successful transfer (transport result 0) with an empty body
authenticates any credential pair, because `buffer[0]` is then the NUL
terminator written by `getUrl`, which differs from '0'. -/
theorem c10_empty_body_authenticates (fetch : String → Int × List Char) (u p h : String)
    (h1 : (fetch (buildAuthUrl h u p)).1 = 0) (h2 : (fetch (buildAuthUrl h u p)).2 = []) :
    classifyAuth (httpAuthenticate fetch u p h) = AuthResult.AUTHENTICATED := by
  simp only [httpAuthenticate, h1, h2]
  decide

/-- Witness for C10: the concrete all-empty-body oracle authenticates. -/
theorem c10_empty_body_authenticates_witness :
    classifyAuth (httpAuthenticate (fun _ => ((0 : Int), ([] : List Char))) "alice" "pw" "h") =
      AuthResult.AUTHENTICATED :=
  c10_empty_body_authenticates (fun _ => ((0 : Int), ([] : List Char))) "alice" "pw" "h" rfl rfl

/-- Claim C4: decoding the single-character body "*" yields NotFound (result
-1), decoding "-1 ghost" yields NotFound through the sentinel-id guard, and
both lookup operations (`getUID` and `getName`) route every successful
transfer through this same decoder. -/
theorem c4_decode_star_and_sentinel :
    decodeLookup ['*'] = (-1, -1, []) ∧
    (decodeLookup ['-', '1', ' ', 'g', 'h', 'o', 's', 't']).1 = -1 ∧
    (∀ (fetch : String → Int × List Char) (host name : String),
      (fetch (lookupUrl host UID name)).1 = 0 →
      getUID fetch host name = decodeLookup (fetch (lookupUrl host UID name)).2) ∧
    (∀ (fetch : String → Int × List Char) (host : String) (i : Int),
      (fetch (lookupUrl host NAME (toString i))).1 = 0 →
      getName fetch host i = decodeLookup (fetch (lookupUrl host NAME (toString i))).2) := by
  refine ⟨by decide, by decide, ?_, ?_⟩
  · intro fetch host name h0
    simp [getUID, getUserData, h0]
  · intro fetch host i h0
    simp [getName, getUserData, h0]

/-- Witness for C4: both operations against a stub returning "*" produce the
NotFound result -1. -/
theorem c4_decode_star_and_sentinel_witness :
    getUID (fun _ => ((0 : Int), ['*'])) "h" "alice" =
      decodeLookup ((fun _ : String => ((0 : Int), ['*'])) (lookupUrl "h" UID "alice")).2 ∧
    getName (fun _ => ((0 : Int), ['*'])) "h" 3 =
      decodeLookup ((fun _ : String => ((0 : Int), ['*'])) (lookupUrl "h" NAME (toString (3 : Int)))).2 := by
  exact ⟨c4_decode_star_and_sentinel.2.2.1 (fun _ => ((0 : Int), ['*'])) "h" "alice" rfl,
    c4_decode_star_and_sentinel.2.2.2 (fun _ => ((0 : Int), ['*'])) "h" 3 rfl⟩

/-- Counterexample to claim C5 as stated: against a stub whose body is "-2"
(a numeric field with no name token), `getUID` returns success (result 0) with
`numeric_id = -2 < 0` and an empty name — a partial-success state the claim
says cannot exist. -/
theorem c5_counterexample :
    getUID (fun _ => ((0 : Int), ['-', '2'])) "h" "bob" = (0, -2, []) := by decide

/-- Claim C5 amended: the only guarantee a successful lookup gives is that the
sentinel id -1 is never surfaced: `sscanf`'s return value is ignored, so a
body whose numeric field parses but whose name token is missing yields success
with an empty name, and negative ids other than -1 are surfaced as valid. -/
theorem c5_success_not_sentinel : ∀ (fetch : String → Int × List Char) (host kind id : String),
    (getUserData fetch host kind id).1 = 0 → (getUserData fetch host kind id).2.1 ≠ -1 := by
  intro fetch host kind id h
  simp only [getUserData] at h ⊢
  rcases hr : fetch (lookupUrl host kind id) with ⟨res, body⟩
  rw [hr] at h
  dsimp only at h ⊢
  by_cases h0 : res = 0
  · rw [if_pos h0] at h ⊢
    unfold decodeLookup at h ⊢
    by_cases hs : firstChar body = '*'
    · rw [if_pos hs] at h
      exact absurd h (by decide)
    · rw [if_neg hs] at h ⊢
      rcases hsc : scanInt body with _ | ⟨n, rest⟩
      · rw [hsc] at h
        exact absurd h (by decide)
      · rw [hsc] at h
        dsimp only at h ⊢
        by_cases hn : n = -1
        · rw [if_pos hn] at h
          simp at h
        · rw [if_neg hn] at h ⊢
          exact hn
  · rw [if_neg h0] at h
    exact absurd h h0

/-- Witness for the amended C5: a successful lookup of body "7 x" surfaces
uid 7 ≠ -1. -/
theorem c5_success_not_sentinel_witness :
    (getUserData (fun _ => ((0 : Int), ['7', ' ', 'x'])) "h" "uid" "a").1 = 0 ∧
    (getUserData (fun _ => ((0 : Int), ['7', ' ', 'x'])) "h" "uid" "a").2.1 ≠ -1 :=
  ⟨by decide, c5_success_not_sentinel (fun _ => ((0 : Int), ['7', ' ', 'x'])) "h" "uid" "a"
    (by decide)⟩

/-- Counterexample to claim C6 as stated: the by-name lookup does not build
`?id=<name>` — it builds `?uid=<name>`. A stub service that answers only the
URL "h?id=alice" claimed by the spec is never reached: `getUID` requests
"h?uid=alice" and gets the NotFound body "*". -/
theorem c6_counterexample :
    lookupUrl "h" UID "alice" = "h?uid=alice" ∧
    lookupUrl "h" UID "alice" ≠ "h?id=alice" ∧
    (getUID (fun u => ((0 : Int), if u = "h?id=alice" then ['1', ' ', 'x'] else ['*']))
      "h" "alice").1 = -1 := by decide

/-- Claim C6 amended: `getUID` builds `?uid=<name>` (parameter "uid", not
"id"; "id" is used only by authentication) and `getName` builds
`?name=<numericId>`: the "name" parameter carries the numeric id. -/
theorem c6_query_parameters (fetch : String → Int × List Char) (host name : String) (i : Int) :
    getUID fetch host name = getUserData fetch host "uid" name ∧
    getName fetch host i = getUserData fetch host "name" (toString i) ∧
    (lookupUrl host UID name).data =
      host.data ++ ('?' :: 'u' :: 'i' :: 'd' :: '=' :: name.data) ∧
    (lookupUrl host NAME (toString i)).data =
      host.data ++ ('?' :: 'n' :: 'a' :: 'm' :: 'e' :: '=' :: (toString i).data) := by
  refine ⟨rfl, rfl, ?_, ?_⟩
  · simp [lookupUrl, UID]
  · simp [lookupUrl, NAME]

/-- The percent-encoding a URL-encoder would apply to '&' inside a value: the
code's `buildAuthUrl` performs no such escaping, so a username containing '&'
produces the raw query `h?id=a&b&pass=x` and not the encoded
`h?id=a%26b&pass=x` that claim C7 requires. -/
theorem c7_no_percent_encoding :
    buildAuthUrl "h" "a&b" "x" = "h?id=a&b&pass=x" ∧
    buildAuthUrl "h" "a&b" "x" ≠ "h?id=a%26b&pass=x" := by decide

/-- Claim C8: whenever the loaded configuration value is empty (in particular
when the config file is absent), each public operation fails with its
configuration error — UNAVAIL for the NSS lookups, AUTH_ERR for PAM
authentication — for every fetch oracle, hence without any network request. -/
theorem c8_config_failfast :
    (∀ prior : String, read_config none prior = "") ∧
    (∀ (fetch : String → Int × List Char) (cfg : Option String) (prior name : String)
        (buflen : Nat), read_config cfg prior = "" →
        _nss_uds_getpwnam_r fetch cfg prior name buflen = NssStatus.UNAVAIL) ∧
    (∀ (fetch : String → Int × List Char) (cfg : Option String) (prior : String) (uid : Int)
        (buflen : Nat), read_config cfg prior = "" →
        _nss_uds_getpwuid_r fetch cfg prior uid buflen = NssStatus.UNAVAIL) ∧
    (∀ (fetch : String → Int × List Char) (b0 : String) (argv : List String)
        (user passwd : Option String), pam_parse b0 argv = "" →
        (pam_sm_authenticate fetch b0 argv user passwd).1 = PamStatus.AUTH_ERR) := by
  refine ⟨fun _ => rfl, ?_, ?_, ?_⟩
  · intro fetch cfg prior name buflen h
    simp [_nss_uds_getpwnam_r, h]
  · intro fetch cfg prior uid buflen h
    simp [_nss_uds_getpwuid_r, h]
  · intro fetch b0 argv user passwd h
    simp [pam_sm_authenticate, h]

/-- Witness for C8 at concrete inputs: absent config file and an oracle that
would succeed — all three entry points still fail with their config error. -/
theorem c8_config_failfast_witness :
    read_config none "garbage" = "" ∧
    _nss_uds_getpwnam_r (fun _ => ((0 : Int), ['1', ' ', 'x'])) none "garbage" "alice" 256 =
      NssStatus.UNAVAIL ∧
    _nss_uds_getpwuid_r (fun _ => ((0 : Int), ['1', ' ', 'x'])) none "garbage" 5 256 =
      NssStatus.UNAVAIL ∧
    (pam_sm_authenticate (fun _ => ((0 : Int), ['1'])) "" [] (some "u") (some "p")).1 =
      PamStatus.AUTH_ERR := by
  refine ⟨c8_config_failfast.1 "garbage",
    c8_config_failfast.2.1 (fun _ => ((0 : Int), ['1', ' ', 'x'])) none "garbage" "alice" 256 rfl,
    c8_config_failfast.2.2.1 (fun _ => ((0 : Int), ['1', ' ', 'x'])) none "garbage" 5 256 rfl,
    c8_config_failfast.2.2.2 (fun _ => ((0 : Int), ['1'])) "" [] (some "u") (some "p") rfl⟩

/-- Counterexample to claim C9 as stated: the PAM adapter's `baseUrl` is a
process-wide static. A first call with argument "base=h" writes "h" into it; a
second call given no configuration argument at all then authenticates
successfully using the value retained from the first call — the configuration
value is shared across calls, not exclusively owned by one call. -/
theorem c9_counterexample :
    (pam_sm_authenticate (fun _ => ((0 : Int), ['1'])) "" ["base=h"] (some "u") (some "p")).2 =
      "h" ∧
    (pam_sm_authenticate (fun _ => ((0 : Int), ['1'])) "" [] (some "u") (some "p")).1 =
      PamStatus.AUTH_ERR ∧
    (pam_sm_authenticate (fun _ => ((0 : Int), ['1']))
        ((pam_sm_authenticate (fun _ => ((0 : Int), ['1'])) "" ["base=h"] (some "u")
          (some "p")).2)
        [] (some "u") (some "p")).1 = PamStatus.SUCCESS := by decide

/-- Claim C9 amended: the per-call response buffers of http.c are freshly
allocated and unshared (the operations are pure functions of their explicit
arguments in this model), but the PAM configuration value is process-wide
mutable state: after any call the static `baseUrl` holds `pam_parse` of its
previous value, so a call without a `base=` argument reads the value retained
from earlier calls. -/
theorem c9_base_url_retained (fetch : String → Int × List Char) (b0 : String)
    (argv : List String) (user passwd : Option String) :
    (pam_sm_authenticate fetch b0 argv user passwd).2 = pam_parse b0 argv ∧
    pam_parse b0 [] = b0 := by
  constructor
  · simp only [pam_sm_authenticate]
    split
    · rfl
    · rcases user with _ | u
      · rfl
      · rcases passwd with _ | p
        · rfl
        · dsimp only
          split <;> rfl
  · rfl
